import Mathlib

/-!
Verification of the `jito` client library (`src/jito.service.ts` and the
bundle test script). Numeric code is embedded over `ℚ` (idealized exact
arithmetic: JavaScript `Math.floor` becomes `Int.floor`, lamport amounts
are integers, SOL amounts rationals). Network effects are embedded by
passing the HTTP response and decoded body as explicit arguments, with
`Except` for thrown errors.
-/

namespace Jito

/-- Constant `JitoService.LAMPORTS_PER_SOL` from `jito.service.ts`. -/
def LAMPORTS_PER_SOL : ℚ := 1000000000

/-- Constant `JitoService.MIN_TIP_LAMPORTS` from `jito.service.ts`. -/
def MIN_TIP_LAMPORTS : ℤ := 1000

/-- The `FeeRecommendation` interface: three integer lamport fields and
their three fractional SOL mirrors. -/
structure FeeRecommendation where
  priorityFeeLamports : ℤ
  jitoTipLamports : ℤ
  totalFeeLamports : ℤ
  priorityFeeSol : ℚ
  jitoTipSol : ℚ
  totalFeeSol : ℚ
  deriving Repr, DecidableEq

/-- Embedding of `JitoService.calculateRecommendedFees` (jito.service.ts,
lines 136-154): convert the SOL budget to lamports, split 70/30 with
`Math.floor`, clamp the tip to `MIN_TIP_LAMPORTS`, recompute the total as
the sum of the two post-floor components, and mirror all three in SOL. -/
def calculateRecommendedFees (totalFeeSol : ℚ) : FeeRecommendation :=
  let totalFeeLamports : ℚ := totalFeeSol * LAMPORTS_PER_SOL
  let priorityFeeLamports : ℤ := ⌊totalFeeLamports * (7/10)⌋
  let jitoTipLamports : ℤ := max ⌊totalFeeLamports * (3/10)⌋ MIN_TIP_LAMPORTS
  { priorityFeeLamports := priorityFeeLamports
    jitoTipLamports := jitoTipLamports
    totalFeeLamports := priorityFeeLamports + jitoTipLamports
    priorityFeeSol := (priorityFeeLamports : ℚ) / LAMPORTS_PER_SOL
    jitoTipSol := (jitoTipLamports : ℚ) / LAMPORTS_PER_SOL
    totalFeeSol := ((priorityFeeLamports + jitoTipLamports : ℤ) : ℚ) / LAMPORTS_PER_SOL }

/-- The `TipPercentile` enum from `jito.service.ts`. -/
inductive TipPercentile where
  | p50
  | p75
  | p95
  | p99
  deriving Repr, DecidableEq

/-- The `TipFloorData` interface: one timestamped tip sample with five
percentile fields and an EMA of the 50th percentile. -/
structure TipFloorData where
  time : String
  landed_tips_25th_percentile : ℚ
  landed_tips_50th_percentile : ℚ
  landed_tips_75th_percentile : ℚ
  landed_tips_95th_percentile : ℚ
  landed_tips_99th_percentile : ℚ
  ema_landed_tips_50th_percentile : ℚ
  deriving Repr, DecidableEq

/-- Errors thrown by `JitoService` methods, one constructor per `throw new
Error(...)` site in `jito.service.ts`. -/
inductive JitoError where
  /-- `Failed to fetch tip floor: STATUS` (line 130). -/
  | fetchTipFloorFailed (status : ℕ)
  /-- `No tip floor data available` (line 162). -/
  | noTipFloorData
  /-- `RPC endpoint is required for bundle simulation` (line 202). -/
  | rpcEndpointRequired
  /-- `Failed to simulate bundle: STATUS` (line 229). -/
  | simulateBundleFailed (status : ℕ)
  deriving Repr, DecidableEq

/-- An HTTP response as the code observes it: the `ok` flag and the
numeric status, plus (passed separately) the decoded JSON body. -/
structure HttpResponse where
  ok : Bool
  status : ℕ
  deriving Repr, DecidableEq

/-- Embedding of `JitoService.getTipFloor` (lines 124-134): the fetched
response and its decoded body are explicit arguments; a non-ok status
throws, otherwise the body is returned unchanged. -/
def getTipFloor (response : HttpResponse) (body : List TipFloorData) :
    Except JitoError (List TipFloorData) :=
  if response.ok = false then .error (.fetchTipFloorFailed response.status)
  else .ok body

/-- The `switch (percentile)` of `getRecommendedFeeFromTipFloor`
(lines 168-181): select the percentile field from one sample. -/
def selectTipAmount (percentile : TipPercentile) (latestData : TipFloorData) : ℚ :=
  match percentile with
  | .p50 => latestData.landed_tips_50th_percentile
  | .p75 => latestData.landed_tips_75th_percentile
  | .p95 => latestData.landed_tips_95th_percentile
  | .p99 => latestData.landed_tips_99th_percentile

/-- Embedding of the pure part of `JitoService.getRecommendedFeeFromTipFloor`
(lines 156-187) after the fetch: an empty sequence throws, otherwise the
requested percentile of the sample at index 0 is taken as the tip amount,
an implied total is reconstructed as `tipAmount / 0.3`, and the split is
delegated to `calculateRecommendedFees`. -/
def getRecommendedFeeFromTipFloor (percentile : TipPercentile)
    (tipFloor : List TipFloorData) : Except JitoError FeeRecommendation :=
  match tipFloor with
  | [] => .error .noTipFloorData
  | latestData :: _ =>
    let tipAmount := selectTipAmount percentile latestData
    let jitoTipSol := tipAmount
    let totalFeeSol := jitoTipSol / (3/10)
    .ok (calculateRecommendedFees totalFeeSol)

/-- The full `getRecommendedFeeFromTipFloor` pipeline including the
`getTipFloor` fetch (line 159). -/
def getRecommendedFeeFromTipFloorFetch (percentile : TipPercentile)
    (response : HttpResponse) (body : List TipFloorData) :
    Except JitoError FeeRecommendation := do
  let tipFloor ← getTipFloor response body
  getRecommendedFeeFromTipFloor percentile tipFloor

/-- The hardcoded `TIP_ACCOUNTS` array (lines 28-37), 8 entries. -/
def TIP_ACCOUNTS : List String :=
  [ "96gYZGLnJYVFmbjzopPSU6QiEV5fGqZNyN9nmNhvrZU5",
    "HFqU5x63VTqvQss8hp11i4wVV8bD44PvwucfZ2bU7gRe",
    "Cw8CFyM9FkoMi7K7Crf6HNQqf4uEMzpKw6QNghXLvLkY",
    "ADaUMid9yfUytqMBgopwjb2DTLSokTSzL1zt6iGPaS49",
    "DfXygSm4jCyNCybVYYK6DwvWqjKee8pbDmJGcLWNDXjh",
    "ADuUkR4vqLUMWXxW9gh6D6L8pMSawimctcNZ5pGwDcEt",
    "DttWaMuVvTiduZRnguLF7jNxTgiMBZ1hyAumKUiL2KRL",
    "3AVi9Tg9Uo68tJfuvoKvqKNWKkC5wPdSSdeBnizKZ6jT" ]

/-- Embedding of `JitoService.getRandomTipAccount` (lines 189-192): the
call to `Math.random()` is modelled as a real draw `r` passed in;
the method returns `TIP_ACCOUNTS[Math.floor(r * TIP_ACCOUNTS.length)]`.
Noncomputable only because `Int.floor` on `ℝ` is. -/
noncomputable def getRandomTipAccount (r : ℝ) : String :=
  let randomIndex : ℤ := ⌊r * (TIP_ACCOUNTS.length : ℝ)⌋
  TIP_ACCOUNTS.getD randomIndex.toNat ""

/-- The `SendTransactionParams` interface: `encoding` and `bundleOnly`
are optional (`none` = absent in the call). -/
structure SendTransactionParams where
  transaction : String
  encoding : Option String := none
  bundleOnly : Option Bool := none
  deriving Repr, DecidableEq

/-- One element of the `params` array handed to `sendTxn`: either the
transaction string or the `{encoding: "base64"}` options object. -/
inductive SendParamElem where
  | tx (transaction : String)
  | encodingObj (encoding : String)
  deriving Repr, DecidableEq

/-- Embedding of `JitoService.sendTransaction` (lines 109-122): returns
the `sendParams` array and the `bundleOnly` flag passed to the underlying
`sendTxn` relay call. `encoding` defaults to `"base64"`, `bundleOnly` to
`false`; the base64 branch appends the encoding object, any other
encoding (i.e. `"base58"`) sends the bare transaction. -/
def sendTransaction (params : SendTransactionParams) : List SendParamElem × Bool :=
  let encoding := params.encoding.getD "base64"
  let bundleOnly := params.bundleOnly.getD false
  let sendParams : List SendParamElem :=
    if encoding = "base64" then
      [.tx params.transaction, .encodingObj "base64"]
    else
      [.tx params.transaction]
  (sendParams, bundleOnly)

/-- The `SimulateBundleParams` interface: both flags optional. -/
structure SimulateBundleParams where
  encodedTransactions : List String
  skipSigVerify : Option Bool := none
  replaceRecentBlockhash : Option Bool := none
  deriving Repr, DecidableEq

/-- The single element of the `params` array of the `simulateBundle`
JSON-RPC request (lines 211-217). -/
structure SimulateBundleCallParams where
  encodedTransactions : List String
  skipSigVerify : Bool
  replaceRecentBlockhash : Bool
  deriving Repr, DecidableEq

/-- The `requestBody` object built by `simulateBundle` (lines 207-218). -/
structure SimulateBundleRequestBody where
  jsonrpc : String
  id : String
  method : String
  params : List SimulateBundleCallParams
  deriving Repr, DecidableEq

/-- The `requestBody` construction of `JitoService.simulateBundle`:
JSON-RPC 2.0 envelope, method `simulateBundle`, and a one-element
`params` array carrying the transactions and the two flags defaulted to
`false`. -/
def simulateBundleRequestBody (params : SimulateBundleParams) : SimulateBundleRequestBody :=
  { jsonrpc := "2.0"
    id := "1"
    method := "simulateBundle"
    params := [{ encodedTransactions := params.encodedTransactions
                 skipSigVerify := params.skipSigVerify.getD false
                 replaceRecentBlockhash := params.replaceRecentBlockhash.getD false }] }

/-- Embedding of `JitoService.simulateBundle` (lines 194-233). The value
returned pairs the request issued over HTTP (`none` when the method
throws before fetching) with the thrown-or-returned outcome; the decoded
response body `body` is returned unchanged on success. The endpoint check
is JavaScript truthiness: both an absent and an empty endpoint throw. -/
def simulateBundle {β : Type} (params : SimulateBundleParams)
    (rpcEndpoint : Option String) (response : HttpResponse) (body : β) :
    Option SimulateBundleRequestBody × Except JitoError β :=
  if rpcEndpoint = none ∨ rpcEndpoint = some "" then
    (none, .error .rpcEndpointRequired)
  else
    let requestBody := simulateBundleRequestBody params
    if response.ok = false then
      (some requestBody, .error (.simulateBundleFailed response.status))
    else
      (some requestBody, .ok body)

/-- A JavaScript value sitting in an `err` field: an opaque payload plus
its JavaScript truthiness. -/
structure ErrValue where
  truthy : Bool
  payload : String
  deriving Repr, DecidableEq

/-- The polled inflight-bundle status object as the test script inspects
it: every field is optional (`none` = field not present on the object,
i.e. the `"field" in obj` check fails). -/
structure InflightStatus where
  confirmation_status : Option String := none
  status : Option String := none
  slot : Option ℕ := none
  landed_slot : Option ℕ := none
  err : Option ErrValue := none
  deriving Repr, DecidableEq

/-- Classification assigned to one polled bundle status response. -/
inductive BundleClassification where
  /-- Terminal: confirmed on-chain at the recorded slot. -/
  | confirmedAt (slot : Option ℕ)
  /-- Terminal: landed; `none` means the slot is unknown. -/
  | landedAt (slot : Option ℕ)
  /-- Terminal: `status == "Failed"`, no further detail. -/
  | failedStatus
  /-- Terminal: `status == "Invalid"`, no further detail. -/
  | invalidStatus
  /-- Non-terminal: still pending. -/
  | pending
  /-- Terminal: failed with a truthy `err` payload. -/
  | failedErr (payload : String)
  /-- The status branch matched none of the four recognized values. -/
  | unhandledStatus (status : String)
  /-- Unexpected response shape. -/
  | unknown
  deriving Repr, DecidableEq

/-- Embedding of the response classification in `testBundle`
(`src/unnamed/part_000`, lines 222-301): the `if / else if / else` chain
over the `inflightStatus` object, in source order. -/
def classifyInflightStatus (s : InflightStatus) : BundleClassification :=
  if s.confirmation_status = some "confirmed" then
    .confirmedAt s.slot
  else
    match s.status with
    | some st =>
      if st = "Landed" then .landedAt s.landed_slot
      else if st = "Failed" then .failedStatus
      else if st = "Invalid" then .invalidStatus
      else if st = "Pending" then .pending
      else .unhandledStatus st
    | none =>
      match s.err with
      | some e => if e.truthy then .failedErr e.payload else .unknown
      | none => .unknown

/-- Terminal states of the tracker: everything except pending, an
unhandled status value, and the unknown shape. -/
def BundleClassification.isTerminal : BundleClassification → Bool
  | .confirmedAt _ => true
  | .landedAt _ => true
  | .failedStatus => true
  | .invalidStatus => true
  | .failedErr _ => true
  | .pending => false
  | .unhandledStatus _ => false
  | .unknown => false

/-! Projection lemmas for `calculateRecommendedFees`, shared by the
theorems below. -/

theorem calculateRecommendedFees_priority (t : ℚ) :
    (calculateRecommendedFees t).priorityFeeLamports = ⌊t * 1000000000 * (7/10)⌋ := rfl

theorem calculateRecommendedFees_tip (t : ℚ) :
    (calculateRecommendedFees t).jitoTipLamports = max ⌊t * 1000000000 * (3/10)⌋ 1000 := rfl

theorem calculateRecommendedFees_total (t : ℚ) :
    (calculateRecommendedFees t).totalFeeLamports =
      (calculateRecommendedFees t).priorityFeeLamports +
      (calculateRecommendedFees t).jitoTipLamports := rfl

theorem calculateRecommendedFees_prioritySol (t : ℚ) :
    (calculateRecommendedFees t).priorityFeeSol =
      ((calculateRecommendedFees t).priorityFeeLamports : ℚ) / 1000000000 := rfl

theorem calculateRecommendedFees_tipSol (t : ℚ) :
    (calculateRecommendedFees t).jitoTipSol =
      ((calculateRecommendedFees t).jitoTipLamports : ℚ) / 1000000000 := rfl

theorem calculateRecommendedFees_totalSol (t : ℚ) :
    (calculateRecommendedFees t).totalFeeSol =
      ((calculateRecommendedFees t).totalFeeLamports : ℚ) / 1000000000 := rfl

/-- C1: for every input `totalFeeSol`, the `FeeRecommendation` returned
by `calculateRecommendedFees` satisfies
`totalFeeLamports = priorityFeeLamports + jitoTipLamports`, including
when the 1000-lamport minimum-tip floor overrides the proportional 70/30
split; `totalFeeLamports` is the recomputed post-floor sum, not the
converted input (at `t = 1/1000000` the floor fires and the total, 1700,
differs from the converted input, 1000). -/
theorem calculateRecommendedFees_total_is_recomputed_sum :
    (∀ t : ℚ, (calculateRecommendedFees t).totalFeeLamports =
        (calculateRecommendedFees t).priorityFeeLamports +
        (calculateRecommendedFees t).jitoTipLamports) ∧
    ((calculateRecommendedFees (1/1000000)).jitoTipLamports = 1000 ∧
      ⌊(1/1000000 : ℚ) * 1000000000 * (3/10)⌋ < 1000 ∧
      (((calculateRecommendedFees (1/1000000)).totalFeeLamports : ℚ) ≠
        (1/1000000) * LAMPORTS_PER_SOL)) := by
  refine ⟨fun t => rfl, ?_, ?_, ?_⟩
  · norm_num [calculateRecommendedFees, LAMPORTS_PER_SOL, MIN_TIP_LAMPORTS]
  · norm_num
  · norm_num [calculateRecommendedFees, LAMPORTS_PER_SOL, MIN_TIP_LAMPORTS]

/-- C2: `calculateRecommendedFees` converts its input to lamports as
`totalLamports = totalFeeSol * 1e9`, returns
`priorityFeeLamports = floor(totalLamports * 0.7)`,
`jitoTipLamports = max(floor(totalLamports * 0.3), 1000)`, and mirrors
all three lamport fields in SOL by dividing by the same constant 1e9. -/
theorem calculateRecommendedFees_formula (t : ℚ) :
    (calculateRecommendedFees t).priorityFeeLamports = ⌊t * 1000000000 * (7/10)⌋ ∧
    (calculateRecommendedFees t).jitoTipLamports = max ⌊t * 1000000000 * (3/10)⌋ 1000 ∧
    (calculateRecommendedFees t).priorityFeeSol =
      ((calculateRecommendedFees t).priorityFeeLamports : ℚ) / 1000000000 ∧
    (calculateRecommendedFees t).jitoTipSol =
      ((calculateRecommendedFees t).jitoTipLamports : ℚ) / 1000000000 ∧
    (calculateRecommendedFees t).totalFeeSol =
      ((calculateRecommendedFees t).totalFeeLamports : ℚ) / 1000000000 :=
  ⟨rfl, rfl, rfl, rfl, rfl⟩

/-- C4: for every `totalFeeSol` small enough that
`floor(totalFeeSol * 1e9 * 0.3) < 1000`, the tip is clamped to exactly
1000 lamports and the realized total strictly exceeds the nominal 70/30
split `floor(totalLamports*0.7) + floor(totalLamports*0.3)` of the
input. -/
theorem calculateRecommendedFees_min_tip_clamp (t : ℚ)
    (h : ⌊t * 1000000000 * (3/10)⌋ < 1000) :
    (calculateRecommendedFees t).jitoTipLamports = 1000 ∧
    (calculateRecommendedFees t).totalFeeLamports >
      ⌊t * 1000000000 * (7/10)⌋ + ⌊t * 1000000000 * (3/10)⌋ := by
  have htip : (calculateRecommendedFees t).jitoTipLamports = 1000 := by
    rw [calculateRecommendedFees_tip]
    exact max_eq_right h.le
  refine ⟨htip, ?_⟩
  rw [calculateRecommendedFees_total, htip, calculateRecommendedFees_priority]
  exact add_lt_add_left h _

/-- Witness for C4 at `totalFeeSol = 1/1000000` (1000 lamports): the
nominal tip floor(300) is below 1000, so the tip clamps to 1000 and the
realized total 1700 exceeds 700 + 300. -/
theorem calculateRecommendedFees_min_tip_clamp_witness :
    (calculateRecommendedFees (1/1000000)).jitoTipLamports = 1000 ∧
    (calculateRecommendedFees (1/1000000)).totalFeeLamports >
      ⌊(1/1000000 : ℚ) * 1000000000 * (7/10)⌋ +
      ⌊(1/1000000 : ℚ) * 1000000000 * (3/10)⌋ :=
  calculateRecommendedFees_min_tip_clamp (1/1000000) (by norm_num)

/-- C10: `calculateRecommendedFees` is monotone: for all inputs
`0 ≤ a ≤ b`, every field of the recommendation at `a` (the three lamport
fields and the three SOL mirrors) is at most the corresponding field at
`b`. -/
theorem calculateRecommendedFees_monotone (a b : ℚ) (_h0 : 0 ≤ a) (hab : a ≤ b) :
    (calculateRecommendedFees a).priorityFeeLamports ≤
      (calculateRecommendedFees b).priorityFeeLamports ∧
    (calculateRecommendedFees a).jitoTipLamports ≤
      (calculateRecommendedFees b).jitoTipLamports ∧
    (calculateRecommendedFees a).totalFeeLamports ≤
      (calculateRecommendedFees b).totalFeeLamports ∧
    (calculateRecommendedFees a).priorityFeeSol ≤
      (calculateRecommendedFees b).priorityFeeSol ∧
    (calculateRecommendedFees a).jitoTipSol ≤
      (calculateRecommendedFees b).jitoTipSol ∧
    (calculateRecommendedFees a).totalFeeSol ≤
      (calculateRecommendedFees b).totalFeeSol := by
  have key : ∀ c : ℚ, 0 ≤ c → a * 1000000000 * c ≤ b * 1000000000 * c := fun c hc =>
    mul_le_mul_of_nonneg_right (mul_le_mul_of_nonneg_right hab (by norm_num)) hc
  have h7 : ⌊a * 1000000000 * (7/10)⌋ ≤ ⌊b * 1000000000 * (7/10)⌋ :=
    Int.floor_le_floor (key _ (by norm_num))
  have h3 : ⌊a * 1000000000 * (3/10)⌋ ≤ ⌊b * 1000000000 * (3/10)⌋ :=
    Int.floor_le_floor (key _ (by norm_num))
  have hp : (calculateRecommendedFees a).priorityFeeLamports ≤
      (calculateRecommendedFees b).priorityFeeLamports := by
    rw [calculateRecommendedFees_priority, calculateRecommendedFees_priority]
    exact h7
  have ht : (calculateRecommendedFees a).jitoTipLamports ≤
      (calculateRecommendedFees b).jitoTipLamports := by
    rw [calculateRecommendedFees_tip, calculateRecommendedFees_tip]
    exact max_le_max h3 le_rfl
  have htot : (calculateRecommendedFees a).totalFeeLamports ≤
      (calculateRecommendedFees b).totalFeeLamports := by
    rw [calculateRecommendedFees_total, calculateRecommendedFees_total]
    exact add_le_add hp ht
  have hdiv : ∀ x y : ℤ, x ≤ y → (x : ℚ) / 1000000000 ≤ (y : ℚ) / 1000000000 :=
    fun x y hxy =>
      div_le_div_of_nonneg_right (by exact_mod_cast hxy) (by norm_num)
  refine ⟨hp, ht, htot, ?_, ?_, ?_⟩
  · rw [calculateRecommendedFees_prioritySol, calculateRecommendedFees_prioritySol]
    exact hdiv _ _ hp
  · rw [calculateRecommendedFees_tipSol, calculateRecommendedFees_tipSol]
    exact hdiv _ _ ht
  · rw [calculateRecommendedFees_totalSol, calculateRecommendedFees_totalSol]
    exact hdiv _ _ htot

/-- Witness for C10 at `a = 1`, `b = 2`. -/
theorem calculateRecommendedFees_monotone_witness :
    (calculateRecommendedFees 1).priorityFeeLamports ≤
      (calculateRecommendedFees 2).priorityFeeLamports ∧
    (calculateRecommendedFees 1).jitoTipLamports ≤
      (calculateRecommendedFees 2).jitoTipLamports ∧
    (calculateRecommendedFees 1).totalFeeLamports ≤
      (calculateRecommendedFees 2).totalFeeLamports ∧
    (calculateRecommendedFees 1).priorityFeeSol ≤
      (calculateRecommendedFees 2).priorityFeeSol ∧
    (calculateRecommendedFees 1).jitoTipSol ≤
      (calculateRecommendedFees 2).jitoTipSol ∧
    (calculateRecommendedFees 1).totalFeeSol ≤
      (calculateRecommendedFees 2).totalFeeSol :=
  calculateRecommendedFees_monotone 1 2 (by norm_num) (by norm_num)

/-- C3: `getRecommendedFeeFromTipFloor` selects the requested percentile
field from the sample at index 0, treats it as only the tip amount,
reconstructs an implied total `tipAmount / 0.3`, and delegates to
`calculateRecommendedFees`; for a newest sample with
`landed_tips_75th_percentile = 0.0003` and percentile P75 the result has
`priorityFeeLamports = 700000` and `jitoTipLamports = 300000`. -/
theorem getRecommendedFeeFromTipFloor_spec :
    (∀ (percentile : TipPercentile) (latestData : TipFloorData)
        (rest : List TipFloorData),
        getRecommendedFeeFromTipFloor percentile (latestData :: rest) =
          .ok (calculateRecommendedFees
                (selectTipAmount percentile latestData / (3/10)))) ∧
    (∀ (latestData : TipFloorData) (rest : List TipFloorData),
        latestData.landed_tips_75th_percentile = 3/10000 →
        getRecommendedFeeFromTipFloor .p75 (latestData :: rest) =
          .ok (calculateRecommendedFees (1/1000)) ∧
        (calculateRecommendedFees (1/1000)).priorityFeeLamports = 700000 ∧
        (calculateRecommendedFees (1/1000)).jitoTipLamports = 300000) := by
  refine ⟨fun percentile latestData rest => rfl, ?_⟩
  intro latestData rest h
  have hsel : selectTipAmount TipPercentile.p75 latestData = 3/10000 := h
  have htot : selectTipAmount TipPercentile.p75 latestData / (3/10) = 1/1000 := by
    rw [hsel]; norm_num
  refine ⟨?_, ?_, ?_⟩
  · have hd : getRecommendedFeeFromTipFloor TipPercentile.p75 (latestData :: rest) =
        .ok (calculateRecommendedFees
              (selectTipAmount TipPercentile.p75 latestData / (3/10))) := rfl
    rw [hd, htot]
  · norm_num [calculateRecommendedFees, LAMPORTS_PER_SOL, MIN_TIP_LAMPORTS]
  · norm_num [calculateRecommendedFees, LAMPORTS_PER_SOL, MIN_TIP_LAMPORTS]

/-- Witness for C3 at a concrete one-sample sequence with
`landed_tips_75th_percentile = 0.0003`. -/
theorem getRecommendedFeeFromTipFloor_spec_witness :
    getRecommendedFeeFromTipFloor .p75
        [{ time := "2024-01-01T00:00:00Z"
           landed_tips_25th_percentile := 0
           landed_tips_50th_percentile := 0
           landed_tips_75th_percentile := 3/10000
           landed_tips_95th_percentile := 0
           landed_tips_99th_percentile := 0
           ema_landed_tips_50th_percentile := 0 }] =
      .ok (calculateRecommendedFees (1/1000)) ∧
    (calculateRecommendedFees (1/1000)).priorityFeeLamports = 700000 ∧
    (calculateRecommendedFees (1/1000)).jitoTipLamports = 300000 :=
  getRecommendedFeeFromTipFloor_spec.2 _ [] rfl

/-- C6: the tip-sample fetch fails with the unavailable error
(`Failed to fetch tip floor`) when the HTTP status is not successful —
both in `getTipFloor` itself and through the
`getRecommendedFeeFromTipFloor` pipeline — and the pipeline fails with
the empty-data error (`No tip floor data available`) when the fetched
sequence has zero elements. -/
theorem tipFloorFetch_errors :
    (∀ (response : HttpResponse) (body : List TipFloorData),
        response.ok = false →
        getTipFloor response body = .error (.fetchTipFloorFailed response.status)) ∧
    (∀ (response : HttpResponse) (percentile : TipPercentile)
        (body : List TipFloorData),
        response.ok = false →
        getRecommendedFeeFromTipFloorFetch percentile response body =
          .error (.fetchTipFloorFailed response.status)) ∧
    (∀ (response : HttpResponse) (percentile : TipPercentile),
        response.ok = true →
        getRecommendedFeeFromTipFloorFetch percentile response [] =
          .error .noTipFloorData) := by
  refine ⟨?_, ?_, ?_⟩
  · intro response body h
    simp [getTipFloor, h]
  · intro response percentile body h
    simp [getRecommendedFeeFromTipFloorFetch, getTipFloor, h, bind, Except.bind]
  · intro response percentile h
    simp [getRecommendedFeeFromTipFloorFetch, getTipFloor, h, bind, Except.bind,
      getRecommendedFeeFromTipFloor]

/-- Witness for C6: a 500 response yields the unavailable error, and an
ok response with an empty body yields the empty-data error. -/
theorem tipFloorFetch_errors_witness :
    getTipFloor ⟨false, 500⟩ [] = .error (.fetchTipFloorFailed 500) ∧
    getRecommendedFeeFromTipFloorFetch .p75 ⟨true, 200⟩ [] =
      .error .noTipFloorData :=
  ⟨tipFloorFetch_errors.1 ⟨false, 500⟩ [] rfl,
   tipFloorFetch_errors.2.2 ⟨true, 200⟩ .p75 rfl⟩

/-- C7: `simulateBundle` fails with the configuration error
(`RPC endpoint is required`) when the endpoint is absent (or empty, by
JavaScript truthiness) without issuing any call, fails with the
transport error on a non-success HTTP status, and otherwise issues
exactly one JSON-RPC `simulateBundle` request whose `params` is a
one-element array carrying the encoded transactions and the two flags,
each defaulting to `false`. -/
theorem simulateBundle_spec :
    (∀ (β : Type) (params : SimulateBundleParams) (response : HttpResponse)
        (body : β),
        simulateBundle params none response body =
          (none, .error .rpcEndpointRequired)) ∧
    (∀ (β : Type) (params : SimulateBundleParams) (endpoint : String)
        (response : HttpResponse) (body : β),
        endpoint ≠ "" → response.ok = false →
        simulateBundle params (some endpoint) response body =
          (some (simulateBundleRequestBody params),
            .error (.simulateBundleFailed response.status))) ∧
    (∀ (β : Type) (params : SimulateBundleParams) (endpoint : String)
        (response : HttpResponse) (body : β),
        endpoint ≠ "" → response.ok = true →
        simulateBundle params (some endpoint) response body =
          (some (simulateBundleRequestBody params), .ok body)) ∧
    (∀ params : SimulateBundleParams,
        (simulateBundleRequestBody params).jsonrpc = "2.0" ∧
        (simulateBundleRequestBody params).method = "simulateBundle" ∧
        (simulateBundleRequestBody params).params =
          [{ encodedTransactions := params.encodedTransactions
             skipSigVerify := params.skipSigVerify.getD false
             replaceRecentBlockhash := params.replaceRecentBlockhash.getD false }]) := by
  refine ⟨?_, ?_, ?_, ?_⟩
  · intro β params response body
    simp [simulateBundle]
  · intro β params endpoint response body he hok
    simp [simulateBundle, he, hok]
  · intro β params endpoint response body he hok
    simp [simulateBundle, he, hok]
  · intro params
    exact ⟨rfl, rfl, rfl⟩

/-- Witness for C7: an omitted endpoint yields the configuration error
with no request issued, and a 500 response through a concrete endpoint
yields the transport error alongside the single request issued. -/
theorem simulateBundle_spec_witness :
    simulateBundle { encodedTransactions := ["tx1"] } (none : Option String)
        ⟨true, 200⟩ (0 : ℕ) =
      (none, .error .rpcEndpointRequired) ∧
    simulateBundle { encodedTransactions := ["tx1"] } (some "https://rpc.example")
        ⟨false, 500⟩ (0 : ℕ) =
      (some (simulateBundleRequestBody { encodedTransactions := ["tx1"] }),
        .error (.simulateBundleFailed 500)) :=
  ⟨simulateBundle_spec.1 ℕ _ ⟨true, 200⟩ 0,
   simulateBundle_spec.2.1 ℕ _ "https://rpc.example" ⟨false, 500⟩ 0
     (by decide) rfl⟩

/-- C9: the `params` array `sendTransaction` hands to the underlying
relay call depends on the encoding: omitted or `"base64"` gives the
two-element array with the `{encoding: "base64"}` object, `"base58"`
gives the one-element bare-transaction array; the defaults are
`encoding = "base64"` and `bundleOnly = false`. -/
theorem sendTransaction_params_spec :
    (∀ p : SendTransactionParams, p.encoding = none →
        (sendTransaction p).1 = [.tx p.transaction, .encodingObj "base64"]) ∧
    (∀ p : SendTransactionParams, p.encoding = some "base64" →
        (sendTransaction p).1 = [.tx p.transaction, .encodingObj "base64"]) ∧
    (∀ p : SendTransactionParams, p.encoding = some "base58" →
        (sendTransaction p).1 = [.tx p.transaction]) ∧
    (∀ p : SendTransactionParams, p.bundleOnly = none →
        (sendTransaction p).2 = false) ∧
    (∀ (p : SendTransactionParams) (b : Bool), p.bundleOnly = some b →
        (sendTransaction p).2 = b) := by
  refine ⟨?_, ?_, ?_, ?_, ?_⟩
  · intro p h; simp [sendTransaction, h]
  · intro p h; simp [sendTransaction, h]
  · intro p h; simp [sendTransaction, h]
  · intro p h; simp [sendTransaction, h]
  · intro p b h; simp [sendTransaction, h]

/-- Witness for C9 at a call with both options omitted and one with
base58 encoding. -/
theorem sendTransaction_params_spec_witness :
    (sendTransaction { transaction := "tx" }).1 =
      [.tx "tx", .encodingObj "base64"] ∧
    (sendTransaction { transaction := "tx", encoding := some "base58" }).1 =
      [.tx "tx"] ∧
    (sendTransaction { transaction := "tx" }).2 = false :=
  ⟨sendTransaction_params_spec.1 _ rfl,
   sendTransaction_params_spec.2.2.1 _ rfl,
   sendTransaction_params_spec.2.2.2.1 _ rfl⟩

/-- C5: classification of a polled bundle status response follows the
source's branch precedence, each branch exclusive of the later ones:
`confirmation_status == "confirmed"` is terminal CONFIRMED with its slot
recorded; otherwise a `status` field gives terminal LANDED for
`"Landed"` (with `landed_slot` when present), terminal FAILED / INVALID
for `"Failed"` / `"Invalid"` with no further detail, and non-terminal
PENDING for `"Pending"`; otherwise a truthy `err` field is terminal
FAILED carrying the err payload; any other response is UNKNOWN. -/
theorem classifyInflightStatus_spec :
    (∀ s : InflightStatus, s.confirmation_status = some "confirmed" →
        classifyInflightStatus s = .confirmedAt s.slot ∧
        (classifyInflightStatus s).isTerminal = true) ∧
    (∀ s : InflightStatus, s.confirmation_status ≠ some "confirmed" →
        s.status = some "Landed" →
        classifyInflightStatus s = .landedAt s.landed_slot ∧
        (classifyInflightStatus s).isTerminal = true) ∧
    (∀ s : InflightStatus, s.confirmation_status ≠ some "confirmed" →
        s.status = some "Failed" →
        classifyInflightStatus s = .failedStatus) ∧
    (∀ s : InflightStatus, s.confirmation_status ≠ some "confirmed" →
        s.status = some "Invalid" →
        classifyInflightStatus s = .invalidStatus) ∧
    (∀ s : InflightStatus, s.confirmation_status ≠ some "confirmed" →
        s.status = some "Pending" →
        classifyInflightStatus s = .pending ∧
        (classifyInflightStatus s).isTerminal = false) ∧
    (∀ (s : InflightStatus) (e : ErrValue),
        s.confirmation_status ≠ some "confirmed" → s.status = none →
        s.err = some e → e.truthy = true →
        classifyInflightStatus s = .failedErr e.payload) ∧
    (∀ s : InflightStatus, s.confirmation_status ≠ some "confirmed" →
        s.status = none →
        (∀ e : ErrValue, s.err = some e → e.truthy = false) →
        classifyInflightStatus s = .unknown ∧
        (classifyInflightStatus s).isTerminal = false) := by
  refine ⟨?_, ?_, ?_, ?_, ?_, ?_, ?_⟩
  · intro s h
    constructor <;> simp [classifyInflightStatus, h, BundleClassification.isTerminal]
  · intro s hc hs
    constructor <;>
      simp [classifyInflightStatus, hc, hs, BundleClassification.isTerminal]
  · intro s hc hs
    simp [classifyInflightStatus, hc, hs]
  · intro s hc hs
    simp [classifyInflightStatus, hc, hs]
  · intro s hc hs
    constructor <;>
      simp [classifyInflightStatus, hc, hs, BundleClassification.isTerminal]
  · intro s e hc hs he ht
    simp [classifyInflightStatus, hc, hs, he, ht]
  · intro s hc hs herr
    cases hse : s.err with
    | none =>
      constructor <;>
        simp [classifyInflightStatus, hc, hs, hse, BundleClassification.isTerminal]
    | some e =>
      have ht := herr e hse
      constructor <;>
        simp [classifyInflightStatus, hc, hs, hse, ht,
          BundleClassification.isTerminal]

/-- Witness for C5 at the spec's concrete examples: a confirmed shape
with slot 7, a landed shape with slot 42, a pending shape, and an empty
response. -/
theorem classifyInflightStatus_spec_witness :
    classifyInflightStatus
        { confirmation_status := some "confirmed", slot := some 7 } =
      .confirmedAt (some 7) ∧
    classifyInflightStatus { status := some "Landed", landed_slot := some 42 } =
      .landedAt (some 42) ∧
    classifyInflightStatus { status := some "Pending" } = .pending ∧
    classifyInflightStatus {} = .unknown :=
  ⟨(classifyInflightStatus_spec.1 _ rfl).1,
   (classifyInflightStatus_spec.2.1 _ (by decide) rfl).1,
   (classifyInflightStatus_spec.2.2.2.2.1 _ (by decide) rfl).1,
   (classifyInflightStatus_spec.2.2.2.2.2.2 _ (by decide) rfl
     (fun e h => Option.noConfusion h)).1⟩

/-! Helper lemmas for the tip-account selection. -/

theorem tipAccounts_length : TIP_ACCOUNTS.length = 8 := rfl

theorem tipAccounts_getD_inj (i j : ℕ) (hi : i < 8) (hj : j < 8)
    (h : TIP_ACCOUNTS.getD i "" = TIP_ACCOUNTS.getD j "") : i = j := by
  have key : ∀ a b : Fin 8, TIP_ACCOUNTS.getD a.val "" = TIP_ACCOUNTS.getD b.val "" →
      a = b := by decide
  exact congrArg Fin.val (key ⟨i, hi⟩ ⟨j, hj⟩ h)

theorem floor_mul_eight_eq_iff (r : ℝ) (i : ℕ) :
    ⌊r * 8⌋ = (i : ℤ) ↔ (i : ℝ)/8 ≤ r ∧ r < ((i : ℝ) + 1)/8 := by
  rw [Int.floor_eq_iff, div_le_iff₀ (by norm_num : (0:ℝ) < 8),
    lt_div_iff₀ (by norm_num : (0:ℝ) < 8)]
  push_cast
  constructor <;> (rintro ⟨a, b⟩; exact ⟨by linarith, by linarith⟩)

/-- C8: `getRandomTipAccount` selects from the fixed 8-entry
`TIP_ACCOUNTS` list: with the random draw modelled as `r ∈ [0,1)` it
returns `TIP_ACCOUNTS[floor(r * 8)]`, which is always an element of the
list, and each of the 8 addresses is selected exactly on the preimage
`[i/8, (i+1)/8)`, an interval of Lebesgue measure 1/8, the same for all
eight. -/
theorem getRandomTipAccount_uniform :
    (∀ r : ℝ, 0 ≤ r → r < 1 →
        getRandomTipAccount r = TIP_ACCOUNTS.getD (⌊r * 8⌋).toNat "" ∧
        getRandomTipAccount r ∈ TIP_ACCOUNTS) ∧
    (∀ i : ℕ, i < 8 →
        {r : ℝ | 0 ≤ r ∧ r < 1 ∧ getRandomTipAccount r = TIP_ACCOUNTS.getD i ""} =
          Set.Ico ((i : ℝ)/8) (((i : ℝ) + 1)/8) ∧
        MeasureTheory.volume (Set.Ico ((i : ℝ)/8) (((i : ℝ) + 1)/8)) = 1/8) := by
  have hlen : (TIP_ACCOUNTS.length : ℝ) = 8 := by norm_num [tipAccounts_length]
  have hform : ∀ r : ℝ, getRandomTipAccount r = TIP_ACCOUNTS.getD (⌊r * 8⌋).toNat "" := by
    intro r
    unfold getRandomTipAccount
    rw [hlen]
  have hidx : ∀ r : ℝ, 0 ≤ r → r < 1 →
      (⌊r * 8⌋).toNat < 8 ∧ ((⌊r * 8⌋).toNat : ℤ) = ⌊r * 8⌋ := by
    intro r h0 h1
    have hnn : (0 : ℤ) ≤ ⌊r * 8⌋ := Int.floor_nonneg.mpr (by positivity)
    have hlt : ⌊r * 8⌋ < 8 := Int.floor_lt.mpr (by norm_num; linarith)
    omega
  refine ⟨?_, ?_⟩
  · intro r h0 h1
    refine ⟨hform r, ?_⟩
    rw [hform r]
    have h8 := (hidx r h0 h1).1
    rw [List.getD_eq_getElem _ _ (by rw [tipAccounts_length]; exact h8)]
    exact List.getElem_mem _
  · intro i hi
    constructor
    · ext r
      simp only [Set.mem_setOf_eq, Set.mem_Ico]
      constructor
      · rintro ⟨h0, h1, heq⟩
        rw [hform r] at heq
        have h8 := (hidx r h0 h1).1
        have hni : (⌊r * 8⌋).toNat = i := tipAccounts_getD_inj _ _ h8 hi heq
        have : ⌊r * 8⌋ = (i : ℤ) := by
          rw [← (hidx r h0 h1).2, hni]
        exact (floor_mul_eight_eq_iff r i).mp this
      · rintro ⟨hlo, hhi⟩
        have hfl : ⌊r * 8⌋ = (i : ℤ) := (floor_mul_eight_eq_iff r i).mpr ⟨hlo, hhi⟩
        have h0 : 0 ≤ r := le_trans (by positivity) hlo
        have h1 : r < 1 := by
          have : ((i : ℝ) + 1)/8 ≤ 1 := by
            rw [div_le_one (by norm_num : (0:ℝ) < 8)]
            have : (i : ℝ) ≤ 7 := by exact_mod_cast Nat.lt_succ_iff.mp (by omega)
            linarith
          linarith
        refine ⟨h0, h1, ?_⟩
        rw [hform r, hfl]
        simp
    · rw [Real.volume_Ico, show ((i : ℝ) + 1)/8 - (i : ℝ)/8 = 1/8 by ring,
        ENNReal.ofReal_div_of_pos (by norm_num), ENNReal.ofReal_one,
        ENNReal.ofReal_ofNat]

/-- Witness for C8 at the draw `r = 1/2` and the address index `i = 4`:
the selection lands in the list and the preimage of the fifth address is
the interval `[1/2, 5/8)` of measure 1/8. -/
theorem getRandomTipAccount_uniform_witness :
    getRandomTipAccount (1/2 : ℝ) ∈ TIP_ACCOUNTS ∧
    MeasureTheory.volume (Set.Ico (((4:ℕ) : ℝ)/8) ((((4:ℕ) : ℝ) + 1)/8)) = 1/8 :=
  ⟨(getRandomTipAccount_uniform.1 (1/2) (by norm_num) (by norm_num)).2,
   (getRandomTipAccount_uniform.2 4 (by norm_num)).2⟩

end Jito


